import Mathlib

/-!
Verification of the ip-lookup HTTP service (src/main.go).

Shallow embedding conventions:
* Go strings are modeled as `List Char` (`GoStr`); the helper `gs` converts a
  Lean string literal into that representation.
* `net.IP` values produced by `net.ParseIP` are modeled as the 16-byte slice
  the Go function returns, i.e. a `List Nat` of length 16 (IPv4 addresses
  appear in their 4-in-6 mapped form, exactly as in Go).
* The GeoIP database handle (`geoip2.Reader`, global `geoDB`) is modeled as
  `Option GeoProvider`: `none` when the database is not loaded, and when it
  is loaded the `City` lookup is an abstract function from the 16 IP bytes to
  `Option GeoRecord` (`none` models the error return of `geoDB.City`).
* An `http.ResponseWriter` interaction is summarized by the final `Response`
  value: status code, the headers the handler wrote, and the body.  Bodies
  are modeled at the JSON-value level (`Body.json` holds the ordered field
  list of the encoded object); Go's `json` encoding of the byte stream
  itself (key sorting for maps, the trailing newline of `Encoder.Encode`)
  is below this abstraction.
* Logging (`log.Printf` etc.) has no observable effect and is dropped.
-/

/-- Go string, modeled as its list of characters. -/
abbrev GoStr := List Char

/-- Convert a Lean string literal into the Go-string model. -/
def gs (s : String) : GoStr := s.data

/-- Character-level split, translating Go `strings.Split(s, sep)` for a
single-character separator (the source only splits on `"/"` and `","`).
Like Go, it always returns at least one (possibly empty) field. -/
def splitCh (sep : Char) : GoStr → List GoStr
  | [] => [[]]
  | c :: cs =>
    if c = sep then [] :: splitCh sep cs
    else
      match splitCh sep cs with
      | [] => [[c]]
      | g :: rest => (c :: g) :: rest

/-- Drop the longest suffix of characters satisfying `p`
(the right-hand half of Go `strings.Trim`/`strings.TrimSpace`). -/
def trimRightWhile (p : Char → Bool) (s : GoStr) : GoStr :=
  (s.reverse.dropWhile p).reverse

/-- Go `strings.Trim(s, cut)` for a single-character cutset: remove all
leading and trailing occurrences of `t`. -/
def trimCh (t : Char) (s : GoStr) : GoStr :=
  trimRightWhile (fun c => c = t) (s.dropWhile (fun c => c = t))

/-- Go `unicode.IsSpace`: the Latin-1 white space characters, plus the
Unicode `White_Space` code points above Latin-1. -/
def isGoSpace (c : Char) : Bool :=
  if c.toNat ≤ 0xFF then
    c = '\t' || c = '\n' || c.toNat = 0x0B || c.toNat = 0x0C || c = '\r' ||
      c = ' ' || c.toNat = 0x85 || c.toNat = 0xA0
  else
    c.toNat = 0x1680 || (0x2000 ≤ c.toNat && c.toNat ≤ 0x200A) ||
      c.toNat = 0x2028 || c.toNat = 0x2029 || c.toNat = 0x202F ||
      c.toNat = 0x205F || c.toNat = 0x3000

/-- Go `strings.TrimSpace`: trim `unicode.IsSpace` characters from both ends. -/
def trimSpace (s : GoStr) : GoStr :=
  trimRightWhile isGoSpace (s.dropWhile isGoSpace)

/-- Index of the last occurrence of `c` in `s` (Go `last(s, c)` used by
`net.SplitHostPort`), or `none` when absent. -/
def lastIdx (c : Char) : GoStr → Option Nat
  | [] => none
  | a :: as =>
    match lastIdx c as with
    | some i => some (i + 1)
    | none => if a = c then some 0 else none

/-- Index of the first occurrence of `c` in `s`, or `none` when absent
(Go `bytealg.IndexByteString`). -/
def firstIdx (c : Char) : GoStr → Option Nat
  | [] => none
  | a :: as => if a = c then some 0 else (firstIdx c as).map (· + 1)

/-- Go `net.SplitHostPort(hostPort)`, returning `some (host, port)` on
success and `none` for any of its error returns (missing port, too many
colons, bracket errors).  Faithful translation of the source in
`net/ipsock.go`: the port starts after the last colon; a leading `[`
requires the matching `]` immediately before that colon; an unbracketed
host may not itself contain a colon; stray `[`/`]` are rejected. -/
def splitHostPort (s : GoStr) : Option (GoStr × GoStr) :=
  match lastIdx ':' s with
  | none => none
  | some i =>
    match s with
    | '[' :: _ =>
      match firstIdx ']' s with
      | none => none
      | some e =>
        if e + 1 = s.length then none
        else if e + 1 = i then
          -- host = s[1:e]; check no '[' in s[1:] and no ']' in s[e+1:]
          if (s.drop 1).contains '[' then none
          else if (s.drop (e + 1)).contains ']' then none
          else some ((s.drop 1).take (e - 1), s.drop (i + 1))
        else none
    | _ =>
      let host := s.take i
      if host.contains ':' then none
      else if s.contains '[' then none
      else if s.contains ']' then none
      else some (host, s.drop (i + 1))

/-- Value of a hexadecimal digit character, `none` for non-hex characters
(the digit classification of the inner loop of `netip.parseIPv6`). -/
def hexVal (c : Char) : Option Nat :=
  if '0' ≤ c ∧ c ≤ '9' then some (c.toNat - '0'.toNat)
  else if 'a' ≤ c ∧ c ≤ 'f' then some (c.toNat - 'a'.toNat + 10)
  else if 'A' ≤ c ∧ c ≤ 'F' then some (c.toNat - 'A'.toNat + 10)
  else none

/-- Field-parsing loop of Go `netip.parseIPv4Fields`.  State: `val` is the
value of the current octet, `digLen` the number of digits seen in it, `pos`
the number of completed octets, `fields` the completed octets.  The Go
conditions `i == 0 || s[i-1] == '.'` and `i == len(s)-1` at a dot appear
here as `digLen = 0` (no digit since the last dot / the start) and
`cs = []` (the dot is the final character).  Errors (leading zero, value
above 255, misplaced dot, more than four octets, stray character, fewer
than four octets) all return `none`. -/
def parseV4Fields : GoStr → Nat → Nat → Nat → List Nat → Option (List Nat)
  | [], val, _digLen, pos, fields =>
    if pos < 3 then none else some (fields ++ [val])
  | c :: cs, val, digLen, pos, fields =>
    if '0' ≤ c ∧ c ≤ '9' then
      if digLen = 1 ∧ val = 0 then none
      else
        let val2 := val * 10 + (c.toNat - '0'.toNat)
        if 255 < val2 then none
        else parseV4Fields cs val2 (digLen + 1) pos fields
    else if c = '.' then
      if digLen = 0 ∨ cs = [] then none
      else if pos = 3 then none
      else parseV4Fields cs 0 0 (pos + 1) (fields ++ [val])
    else none

/-- Go `netip.parseIPv4`: the four dotted-decimal octets of `s`, or `none`. -/
def parseV4 (s : GoStr) : Option (List Nat) :=
  parseV4Fields s 0 0 0 []

/-- The 4-in-6 mapped 16-byte form of an IPv4 address, as produced by
`netip.Addr.As16` on a 4-byte address (used by `net.ParseIP`). -/
def v4mapped (quad : List Nat) : List Nat :=
  [0, 0, 0, 0, 0, 0, 0, 0, 0, 0, 0xFF, 0xFF] ++ quad

/-- Hex-group scanner of `netip.parseIPv6`: consume leading hex digits of
`s`, returning the accumulated value, the number of digits consumed and the
rest.  A fifth digit (index `off > 3`) or a value above `0xFFFF` is an
error (`none`), exactly as in the source. -/
def scanHex : GoStr → Nat → Nat → Option (Nat × Nat × GoStr)
  | [], acc, off => some (acc, off, [])
  | c :: cs, acc, off =>
    match hexVal c with
    | some d =>
      let acc2 := acc * 16 + d
      if 3 < off then none
      else if 0xFFFF < acc2 then none
      else scanHex cs acc2 (off + 1)
    | none => some (acc, off, c :: cs)

/-- Main loop of Go `netip.parseIPv6` (`for i < 16`).  `ip` holds the bytes
written so far (`i = ip.length`), `ell` the byte position of a `::` seen so
far.  `fuel` bounds the iteration count: the loop body adds two bytes per
iteration (the embedded-IPv4 branch adds four and leaves the loop), so
eight iterations reach `i = 16`.  Returns the bytes, the `::` position and
the unconsumed input (checked by `finishV6`); parse errors are `none`. -/
def parseV6Loop : Nat → GoStr → List Nat → Option Nat → Option (List Nat × Option Nat × GoStr)
  | 0, s, ip, ell => some (ip, ell, s)
  | fuel + 1, s, ip, ell =>
    match scanHex s 0 0 with
    | none => none
    | some (acc, off, rest) =>
      if off = 0 then none  -- each colon-separated field must have a digit
      else
        match rest with
        | '.' :: _ =>
          -- Embedded IPv4: must occupy the final two groups unless a '::'
          -- was seen; parseIPv4Fields rereads from the start of this group
          -- (the whole of `s`), so the scanned hex digits are re-parsed.
          if ell = none ∧ ip.length ≠ 12 then none
          else if 16 < ip.length + 4 then none
          else
            match parseV4 s with
            | none => none
            | some quad => some (ip ++ quad, ell, [])
        | _ =>
          let ip2 := ip ++ [acc / 256, acc % 256]
          match rest with
          | [] => some (ip2, ell, [])
          | ':' :: rest2 =>
            match rest2 with
            | [] => none  -- colon must be followed by more characters
            | ':' :: rest3 =>
              if ell.isSome then none  -- multiple :: in address
              else
                match rest3 with
                | [] => some (ip2, some ip2.length, [])
                | _ => parseV6Loop fuel rest3 ip2 (some ip2.length)
            | _ => parseV6Loop fuel rest2 ip2 ell
          | _ => none  -- unexpected character, want colon

/-- Post-loop processing of Go `netip.parseIPv6`: reject trailing input,
expand a `::` (which must stand for at least one zero group), and require
exactly 16 bytes. -/
def finishV6 : Option (List Nat × Option Nat × GoStr) → Option (List Nat)
  | none => none
  | some (ip, ell, s) =>
    if s ≠ [] then none  -- trailing garbage after address
    else if ip.length < 16 then
      match ell with
      | none => none  -- address string too short
      | some e => some (ip.take e ++ List.replicate (16 - ip.length) 0 ++ ip.drop e)
    else
      match ell with
      | some _ => none  -- :: must expand to at least one field of zeros
      | none => some ip

/-- Go `netip.parseIPv6` as used by `net.ParseIP`.  A `%` introduces a zone:
an empty zone is a parse error and `net.ParseIP` rejects every address whose
zone is non-empty (`ip.Zone() != ""` in `net.parseIP`), so any input
containing `%` yields `none` here. -/
def parseIPv6 (s : GoStr) : Option (List Nat) :=
  if s.contains '%' then none
  else
    match s with
    | ':' :: ':' :: rest =>
      if rest = [] then some (List.replicate 16 0)  -- "::", IPv6 unspecified
      else finishV6 (parseV6Loop 8 rest [] (some 0))
    | _ => finishV6 (parseV6Loop 8 s [] none)

/-- Dispatch of Go `netip.ParseAddr`: the first of `.`, `:`, `%` found in
the string decides the format; none of them is an error. -/
def firstSpecial : GoStr → Option Char
  | [] => none
  | c :: cs => if c = '.' ∨ c = ':' ∨ c = '%' then some c else firstSpecial cs

/-- Go `net.ParseIP(s)`, modeled as the 16 bytes of the returned `net.IP`
(`none` for the `nil` return).  IPv4 addresses are returned in their
4-in-6 mapped 16-byte form (`As16`), as in the source. -/
def goParseIP (s : GoStr) : Option (List Nat) :=
  match firstSpecial s with
  | some '.' => (parseV4 s).map v4mapped
  | some ':' => parseIPv6 s
  | _ => none

/-- The `To4`-style test of Go `net.IP.String`: a 16-byte address is printed
in dotted-decimal form iff bytes 0–9 are zero and bytes 10 and 11 are `0xFF`. -/
def is4in6 (ip : List Nat) : Bool :=
  ((List.range 10).all fun i => ip.getD i 0 = 0) &&
    ip.getD 10 0 = 0xFF && ip.getD 11 0 = 0xFF

/-- Decimal digits of a byte (Go `appendDecimal` in `netip`). -/
def natDec (n : Nat) : GoStr := (Nat.repr n).data

/-- Dotted-decimal rendering of the last four bytes (Go `netip.Addr.string4`). -/
def v4String (a b c d : Nat) : GoStr :=
  natDec a ++ '.' :: natDec b ++ '.' :: natDec c ++ '.' :: natDec d

/-- The eight 16-bit groups of a 16-byte IPv6 address (Go `Addr.v6u16`). -/
def v6groups : List Nat → List Nat
  | a :: b :: rest => (a * 256 + b) :: v6groups rest
  | _ => []

/-- Scan of Go `netip.Addr.appendTo6`: the end of the run of zero groups
starting at `j` (first index `≥ j` that is 8 or holds a non-zero group). -/
def runEnd (g : List Nat) : Nat → Nat → Nat
  | 0, j => j
  | fuel + 1, j => if j < 8 ∧ g.getD j 0 = 0 then runEnd g fuel (j + 1) else j

/-- Zero-run selection of `netip.Addr.appendTo6`: the leftmost longest run
of at least two zero groups, `(255, 255)` when there is none. -/
def findZeroRun (g : List Nat) : Nat × Nat :=
  (List.range 8).foldl
    (fun zr i =>
      let j := runEnd g 8 i
      if 2 ≤ j - i ∧ zr.2 - zr.1 < j - i then (i, j) else zr)
    (255, 255)

/-- The lowercase hex digit character for a value below 16
(Go `hexDigit = "0123456789abcdef"`). -/
def hexDigitCh (n : Nat) : Char :=
  if n < 10 then Char.ofNat ('0'.toNat + n) else Char.ofNat ('a'.toNat + n - 10)

/-- Go `netip.appendHex`: lowercase hex digits of a 16-bit group, without
leading zeros. -/
def appendHexG (x : Nat) : GoStr :=
  (if 0x1000 ≤ x then [hexDigitCh (x / 4096)] else []) ++
    (if 0x100 ≤ x then [hexDigitCh (x / 256 % 16)] else []) ++
    (if 0x10 ≤ x then [hexDigitCh (x / 16 % 16)] else []) ++
    [hexDigitCh (x % 16)]

/-- Emission loop of `netip.Addr.appendTo6`: print groups `i`–`7`, writing
`::` at `zs` and resuming at group `ze` (without a separating colon, as in
the source).  `fuel` bounds the recursion; the index strictly increases
toward 8, so fuel 16 suffices. -/
def v6emit (g : List Nat) (zs ze : Nat) : Nat → Nat → GoStr
  | 0, _ => []
  | fuel + 1, i =>
    if 8 ≤ i then []
    else if i = zs then
      ':' :: ':' ::
        (if 8 ≤ ze then []
         else appendHexG (g.getD ze 0) ++ v6emit g zs ze fuel (ze + 1))
    else
      (if i = 0 then [] else [':']) ++ appendHexG (g.getD i 0) ++ v6emit g zs ze fuel (i + 1)

/-- RFC 5952 rendering of a 16-byte IPv6 address (Go `netip.Addr.string6`). -/
def v6String (ip : List Nat) : GoStr :=
  let g := v6groups ip
  let zr := findZeroRun g
  v6emit g zr.1 zr.2 16 0

/-- Go `net.IP.String()` on the 16-byte addresses produced by `net.ParseIP`:
dotted decimal via `To4` for (mapped) IPv4 addresses, RFC 5952 text
otherwise.  (The `<nil>` and non-16-byte cases of the source cannot arise
here.) -/
def goIPString (ip : List Nat) : GoStr :=
  if is4in6 ip then
    v4String (ip.getD 12 0) (ip.getD 13 0) (ip.getD 14 0) (ip.getD 15 0)
  else v6String ip

/-- An incoming HTTP request, as seen by the handlers.  The three headers
the source reads (`Origin`, `X-Forwarded-For`, `X-Real-IP`) are modeled as
fields holding the result of `r.Header.Get`, which is `""` for an absent
header. -/
structure Request where
  method : GoStr
  path : GoStr
  origin : GoStr
  xForwardedFor : GoStr
  xRealIP : GoStr
  remoteAddr : GoStr
  deriving DecidableEq

/-- A JSON field value occurring in the service's responses: Go strings, and
Go numbers (`int` codes and `float64` coordinates, modeled as rationals). -/
inductive JVal where
  | str : GoStr → JVal
  | num : Rat → JVal
  deriving DecidableEq

/-- A response body: a JSON object (its ordered field list), plain text
(`http.Error` in the stdlib), or no body (`204 No Content`). -/
inductive Body where
  | json : List (GoStr × JVal) → Body
  | text : GoStr → Body
  | empty : Body
  deriving DecidableEq

/-- The observable result of a handler: status code, the headers it wrote,
and the body. -/
structure Response where
  status : Nat
  headers : List (GoStr × GoStr)
  body : Body
  deriving DecidableEq

/-- The fields of a `geoip2.City` record that the handler reads.  Go map
access `Names["en"]` returns the zero value `""` when the key is absent, so
each name field holds that defaulted string; `subdivisionNamesEn` lists
`Names["en"]` of each entry of `record.Subdivisions` (a nil slice and an
empty slice both yield `[]`, which is exactly the distinction the source's
`record.Subdivisions != nil && len(record.Subdivisions) > 0` collapses). -/
structure GeoRecord where
  cityNameEn : GoStr
  countryIso : GoStr
  countryNameEn : GoStr
  continentNameEn : GoStr
  latitude : Rat
  longitude : Rat
  timeZone : GoStr
  postalCode : GoStr
  subdivisionNamesEn : List GoStr
  deriving DecidableEq

/-- The loaded GeoIP database: `geoDB.City` on the 16 bytes of a parsed IP,
with `none` for the error return. -/
def GeoProvider := List Nat → Option GeoRecord

/-- The `Content-Type: application/json` header the handlers set. -/
def contentTypeJSON : GoStr × GoStr := (gs "Content-Type", gs "application/json")

/-- Go `writeJSONError(w, message, code)`: set the JSON content type, write
the status, and encode `AppError{Message: message, Code: code}` (fields in
declaration order `message`, `code`). -/
def writeJSONError (message : GoStr) (code : Nat) : Response :=
  { status := code
    headers := [contentTypeJSON]
    body := .json [(gs "message", .str message), (gs "code", .num (code : Rat))] }

/-- Header-based client-IP fallback of `lookupHandler` (the `else` branch of
the path check): first `X-Forwarded-For` (first comma-separated entry,
whitespace-trimmed), then `X-Real-IP` (trimmed), then `r.RemoteAddr` — the
host part when `net.SplitHostPort` succeeds, the raw string when it fails. -/
def resolveFromHeaders (r : Request) : GoStr :=
  let ipStr : GoStr :=
    if r.xForwardedFor ≠ [] then
      let firstIP := trimSpace ((splitCh ',' r.xForwardedFor).headD [])
      if firstIP ≠ [] then firstIP else []
    else []
  let ipStr : GoStr :=
    if ipStr = [] then
      if r.xRealIP ≠ [] then trimSpace r.xRealIP else []
    else ipStr
  if ipStr = [] then
    match splitHostPort r.remoteAddr with
    | some hp => hp.1
    | none => r.remoteAddr
  else ipStr

/-- Candidate-IP selection of `lookupHandler`: split the `/`-trimmed path on
`/`; if there is a second, non-empty part (`len(pathParts) > 1 &&
pathParts[1] != ""`) it is the candidate, otherwise fall back to the
headers and peer address. -/
def resolveIPStr (r : Request) : GoStr :=
  match splitCh '/' (trimCh '/' r.path) with
  | _ :: p1 :: _ => if p1 = [] then resolveFromHeaders r else p1
  | _ => resolveFromHeaders r

/-- The success-body field list of `lookupHandler`: the nine fixed keys, and
`subdivision_name` (from the first subdivision entry) exactly when the
record has at least one subdivision.  (The Go code builds a `map[string]any`
and conditionally inserts the key; the body is modeled as the field list in
program order, JSON key order being below this abstraction.) -/
def lookupFields (ip : List Nat) (record : GeoRecord) : List (GoStr × JVal) :=
  [(gs "ip", .str (goIPString ip)),
   (gs "city", .str record.cityNameEn),
   (gs "country_code", .str record.countryIso),
   (gs "country_name", .str record.countryNameEn),
   (gs "continent", .str record.continentNameEn),
   (gs "latitude", .num record.latitude),
   (gs "longitude", .num record.longitude),
   (gs "time_zone", .str record.timeZone),
   (gs "postal_code", .str record.postalCode)] ++
    (if record.subdivisionNamesEn ≠ [] then
      [(gs "subdivision_name", .str (record.subdivisionNamesEn.headD []))]
     else [])

/-- Go `lookupHandler`: 500 when the database is not loaded; otherwise
resolve the candidate IP string, reject an empty or invalid candidate with
400, look the parsed IP up (404 on provider failure), and return the shaped
200 response. -/
def lookupHandler (db : Option GeoProvider) (r : Request) : Response :=
  match db with
  | none => writeJSONError (gs "GeoIP service not available") 500
  | some city =>
    let ipStr := resolveIPStr r
    if ipStr = [] then
      writeJSONError (gs "Could not determine IP address from request") 400
    else
      match goParseIP ipStr with
      | none => writeJSONError (gs "Invalid IP address format: " ++ ipStr) 400
      | some ip =>
        match city ip with
        | none => writeJSONError (gs "GeoIP data not found for IP: " ++ goIPString ip) 404
        | some record =>
          { status := 200
            headers := [contentTypeJSON]
            body := .json (lookupFields ip record) }

/-- Go `healthzHandler`: 500 `{"message":"GeoIP database not loaded","code":500}`
when the database handle is nil, else 200 `{"status":"ok"}`. -/
def healthzHandler (db : Option GeoProvider) (_r : Request) : Response :=
  match db with
  | none => writeJSONError (gs "GeoIP database not loaded") 500
  | some _ =>
    { status := 200
      headers := [contentTypeJSON]
      body := .json [(gs "status", .str (gs "ok"))] }

/-- Go stdlib `http.NotFound` (via `http.Error`): plain-text 404 with an
`X-Content-Type-Options: nosniff` header and body `"404 page not found\n"`. -/
def httpNotFoundResp : Response :=
  { status := 404
    headers := [(gs "Content-Type", gs "text/plain; charset=utf-8"),
                (gs "X-Content-Type-Options", gs "nosniff")]
    body := .text (gs "404 page not found\n") }

/-- Go `rootHandler`: the welcome object on the exact path `/`, and the
stdlib plain-text 404 on every other path the mux routes here. -/
def rootHandler (_db : Option GeoProvider) (r : Request) : Response :=
  if r.path ≠ gs "/" then httpNotFoundResp
  else
    { status := 200
      headers := [contentTypeJSON]
      body := .json
        [(gs "message",
          .str (gs "Welcome to the IP Lookup Service. Please use the /lookup endpoint to find GeoIP information.")),
         (gs "example_usage", .str (gs "/lookup/8.8.8.8 or /lookup/"))] }

/-- The `http.ServeMux` of `main`: `/healthz` exactly, the `/lookup/`
subtree, and `/` for everything else.  (The mux's canonicalizing 301
redirects, e.g. `/lookup` to `/lookup/`, are outside this model; theorems
quantify over the canonical paths a handler receives.) -/
def muxHandler (db : Option GeoProvider) (r : Request) : Response :=
  if r.path = gs "/healthz" then healthzHandler db r
  else if (gs "/lookup/").isPrefixOf r.path then lookupHandler db r
  else rootHandler db r

/-- The CORS headers `corsMiddleware` writes for a request with the given
configured origins, request origin and method, in the order of the
`w.Header().Set`/`Add` calls: the wildcard or matched origin (with `Vary`),
then for an allowed origin the methods and headers lists, the credentials
header (only for a non-wildcard match with a non-empty origin), and for an
allowed preflight the max-age. -/
def corsHeaders (allowed : List GoStr) (origin method : GoStr) : List (GoStr × GoStr) :=
  -- `allowed.contains (gs "*")` is the source's `hasWildcard`, and the
  -- disjunction with `allowed.contains origin` is its `isAllowed` flag.
  if allowed.contains (gs "*") || allowed.contains origin then
    (if allowed.contains (gs "*") then [(gs "Access-Control-Allow-Origin", gs "*")]
     else if allowed.contains origin then
       [(gs "Access-Control-Allow-Origin", origin), (gs "Vary", gs "Origin")]
     else []) ++
      [(gs "Access-Control-Allow-Methods", gs "GET, POST, OPTIONS, PUT, DELETE"),
       (gs "Access-Control-Allow-Headers", gs "Content-Type, Authorization, X-Requested-With")] ++
      (if ¬allowed.contains (gs "*") ∧ origin ≠ [] then
        [(gs "Access-Control-Allow-Credentials", gs "true")]
       else []) ++
      (if method = gs "OPTIONS" then [(gs "Access-Control-Max-Age", gs "86400")] else [])
  else []

/-- Go `corsMiddleware(next, allowedOrigins)`.  The boolean of the result
records whether the downstream handler ran.  With no configured origins or
no `Origin` header the request passes through untouched; an allowed
preflight is answered directly with 204 and no body; an allowed non-OPTIONS
request reaches `next` with the CORS headers added; a disallowed origin
passes through with no CORS headers (`isAllowed` stays false, so the header
block is skipped). -/
def corsMiddleware (allowed : List GoStr) (next : Request → Response) (r : Request) :
    Response × Bool :=
  if allowed = [] ∨ r.origin = [] then (next r, true)
  else if allowed.contains (gs "*") || allowed.contains r.origin then
    -- the source's `isAllowed` flag
    if r.method = gs "OPTIONS" then
      ({ status := 204
         headers := corsHeaders allowed r.origin r.method
         body := .empty }, false)
    else
      ({ next r with headers := corsHeaders allowed r.origin r.method ++ (next r).headers }, true)
  else (next r, true)

/-- The composed server handler of `main`: the CORS middleware wrapped
around the mux. -/
def service (db : Option GeoProvider) (allowed : List GoStr) (r : Request) :
    Response × Bool :=
  corsMiddleware allowed (muxHandler db) r

/-- Spec-side definition (claim C1 / spec §4.1 step 1): "a non-empty
segment after `/lookup/`, used verbatim" — the first `/`-separated segment
of the path remainder `rest`, where the request path is `/lookup/` ++ `rest`. -/
def specPathCandidate (rest : GoStr) : GoStr :=
  (splitCh '/' rest).headD []

/-- Spec-side definition (claim C1 / spec §4.1 step 2): "split
`X-Forwarded-For` on commas, trim whitespace, take the first element". -/
def specXffCandidate (xff : GoStr) : GoStr :=
  trimSpace ((splitCh ',' xff).headD [])

/-- Spec-side definition (claim C1 / spec §4.1 step 3): "`X-Real-IP`,
trimmed". -/
def specXriCandidate (xri : GoStr) : GoStr :=
  trimSpace xri

/-- Spec-side definition (claim C1 / spec §4.1 step 4): "the host part of
the transport peer address when it parses as host:port, and the raw peer
address string when it does not". -/
def specPeerCandidate (peer : GoStr) : GoStr :=
  match splitHostPort peer with
  | some hp => hp.1
  | none => peer

/-- Spec-side definition (claim C1): the fixed candidate priority order —
path segment, then first `X-Forwarded-For` entry, then `X-Real-IP`, then
the peer address, each used when non-empty. -/
def specResolutionOrder (rest xff xri peer : GoStr) : GoStr :=
  if specPathCandidate rest ≠ [] then specPathCandidate rest
  else if specXffCandidate xff ≠ [] then specXffCandidate xff
  else if specXriCandidate xri ≠ [] then specXriCandidate xri
  else specPeerCandidate peer

/-- Witness fixture: a concrete provider record with one subdivision. -/
def record0 : GeoRecord :=
  { cityNameEn := gs "Mountain View"
    countryIso := gs "US"
    countryNameEn := gs "United States"
    continentNameEn := gs "North America"
    latitude := 37
    longitude := -122
    timeZone := gs "America/Los_Angeles"
    postalCode := gs "94035"
    subdivisionNamesEn := [gs "California"] }

/-- Witness fixture: a provider that returns `record0` for every IP. -/
def provHit : GeoProvider := fun _ => some record0

/-- Witness fixture: a provider whose lookup always fails. -/
def provMiss : GeoProvider := fun _ => none

/-- Request builder (all fields positional). -/
def reqFor (method path origin xff xri peer : GoStr) : Request :=
  { method := method
    path := path
    origin := origin
    xForwardedFor := xff
    xRealIP := xri
    remoteAddr := peer }

/-- Witness fixture: a plain GET request builder. -/
def mkReq (path xff xri origin peer : GoStr) : Request :=
  reqFor (gs "GET") path origin xff xri peer

theorem splitCh_example1 : splitCh ',' (gs "1.2.3.4, 5.6.7.8") = [gs "1.2.3.4", gs " 5.6.7.8"] := by decide

theorem splitCh_example2 : splitCh '/' (gs "lookup/8.8.8.8") = [gs "lookup", gs "8.8.8.8"] := by decide

theorem trimCh_example : trimCh '/' (gs "/lookup/8.8.8.8/") = gs "lookup/8.8.8.8" := by decide

theorem trimSpace_example : trimSpace (gs "  9.9.9.9 ") = gs "9.9.9.9" := by decide

theorem splitHostPort_example1 : splitHostPort (gs "203.0.113.5:54321") = some (gs "203.0.113.5", gs "54321") := by decide

theorem splitHostPort_example2 : splitHostPort (gs "[::1]:80") = some (gs "::1", gs "80") := by decide

theorem splitHostPort_example3 : splitHostPort (gs "::1") = none := by decide

theorem splitHostPort_example4 : splitHostPort (gs ":80") = some (gs "", gs "80") := by decide

theorem goParseIP_example_v4 :
    goParseIP (gs "8.8.8.8") = some [0, 0, 0, 0, 0, 0, 0, 0, 0, 0, 0xFF, 0xFF, 8, 8, 8, 8] := by decide

theorem goParseIP_example_invalid1 : goParseIP (gs "999.999.999.999") = none := by decide

theorem goParseIP_example_invalid2 : goParseIP (gs "not-an-ip") = none := by decide

theorem goParseIP_example_invalid3 : goParseIP (gs "1.2.3.04") = none := by decide

theorem goParseIP_example_v6 :
    goParseIP (gs "2001:db8::1") =
      some [0x20, 0x01, 0x0D, 0xB8, 0, 0, 0, 0, 0, 0, 0, 0, 0, 0, 0, 1] := by decide

theorem goParseIP_example_zone : goParseIP (gs "fe80::1%eth0") = none := by decide

theorem goIPString_example_v4 :
    (goParseIP (gs "8.8.8.8")).map goIPString = some (gs "8.8.8.8") := by decide

theorem goIPString_example_mapped :
    (goParseIP (gs "::ffff:1.2.3.4")).map goIPString = some (gs "1.2.3.4") := by decide

theorem goIPString_example_v6 :
    (goParseIP (gs "2001:DB8::1")).map goIPString = some (gs "2001:db8::1") := by decide

theorem goIPString_example_loopback :
    (goParseIP (gs "::1")).map goIPString = some (gs "::1") := by decide

theorem splitCh_ne_nil (sep : Char) (s : GoStr) : splitCh sep s ≠ [] := by
  induction s with
  | nil => simp [splitCh]
  | cons c cs ih =>
    by_cases h : c = sep
    · simp [splitCh, h]
    · simp only [splitCh, if_neg h]
      cases hsp : splitCh sep cs <;> simp

theorem headD_splitCh (sep : Char) (s : GoStr) :
    (splitCh sep s).headD [] = s.takeWhile (fun c => ¬c = sep) := by
  induction s with
  | nil => rfl
  | cons c cs ih =>
    by_cases h : c = sep
    · simp [splitCh, h, List.takeWhile_cons]
    · obtain ⟨g, rest, hg⟩ := List.exists_cons_of_ne_nil (splitCh_ne_nil sep cs)
      rw [List.takeWhile_cons_of_pos (by simpa using h), ← ih, hg]
      simp only [splitCh, if_neg h, hg]
      rfl

theorem goDropWhile_append (p : Char → Bool) (xs ys : GoStr) :
    (xs ++ ys).dropWhile p =
      if xs.dropWhile p = [] then ys.dropWhile p else xs.dropWhile p ++ ys := by
  induction xs with
  | nil => simp
  | cons a as ih =>
    by_cases h : p a
    · rw [List.cons_append, List.dropWhile_cons_of_pos h, List.dropWhile_cons_of_pos h, ih]
    · rw [List.cons_append, List.dropWhile_cons_of_neg h, List.dropWhile_cons_of_neg h]
      simp

theorem goTakeWhile_append (p : Char → Bool) (xs ys : GoStr) :
    (xs ++ ys).takeWhile p =
      if xs.takeWhile p = xs then xs ++ ys.takeWhile p else xs.takeWhile p := by
  induction xs with
  | nil => simp
  | cons a as ih =>
    by_cases h : p a
    · rw [List.cons_append, List.takeWhile_cons_of_pos h, List.takeWhile_cons_of_pos h, ih]
      by_cases h2 : as.takeWhile p = as
      · simp [h2]
      · simp [h2]
    · rw [List.cons_append, List.takeWhile_cons_of_neg h, List.takeWhile_cons_of_neg h]
      simp

theorem trimRightWhile_append (p : Char → Bool) (xs ys : GoStr) :
    trimRightWhile p (xs ++ ys) =
      if trimRightWhile p ys = [] then trimRightWhile p xs else xs ++ trimRightWhile p ys := by
  unfold trimRightWhile
  rw [List.reverse_append, goDropWhile_append]
  by_cases h : ys.reverse.dropWhile p = []
  · rw [if_pos h, if_pos (by simp [h])]
  · rw [if_neg h, if_neg (by simp [h]), List.reverse_append, List.reverse_reverse]

theorem takeWhile_trimRight (t : Char) (s : GoStr) :
    (trimRightWhile (fun c => c = t) s).takeWhile (fun c => ¬c = t) =
      s.takeWhile (fun c => ¬c = t) := by
  induction s using List.reverseRecOn with
  | nil => rfl
  | append_singleton l a ih =>
    by_cases h : a = t
    · have h1 : trimRightWhile (fun c => c = t) (l ++ [a]) =
          trimRightWhile (fun c => c = t) l := by
        rw [trimRightWhile_append, if_pos (by simp [trimRightWhile, h])]
      have ha : ([a].takeWhile fun c => ¬c = t) = [] :=
        List.takeWhile_cons_of_neg (by simp [h])
      have h2 : (l ++ [a]).takeWhile (fun c => ¬c = t) =
          l.takeWhile (fun c => ¬c = t) := by
        rw [goTakeWhile_append, ha]
        by_cases hc : l.takeWhile (fun c => ¬c = t) = l
        · rw [if_pos hc, List.append_nil, hc]
        · rw [if_neg hc]
      rw [h1, ih, h2]
    · have h1 : trimRightWhile (fun c => c = t) (l ++ [a]) = l ++ [a] := by
        rw [trimRightWhile_append, if_neg (by simp [trimRightWhile, h])]
        simp [trimRightWhile, h]
      rw [h1]

theorem takeWhile_of_trimRight_nil (t : Char) (s : GoStr)
    (h : trimRightWhile (fun c => c = t) s = []) :
    s.takeWhile (fun c => ¬c = t) = [] := by
  rw [← takeWhile_trimRight t s, h]
  rfl

theorem resolveFromHeaders_eq (r : Request) :
    resolveFromHeaders r =
      if specXffCandidate r.xForwardedFor ≠ [] then specXffCandidate r.xForwardedFor
      else if specXriCandidate r.xRealIP ≠ [] then specXriCandidate r.xRealIP
      else specPeerCandidate r.remoteAddr := by
  unfold resolveFromHeaders specXffCandidate specXriCandidate specPeerCandidate
  by_cases hx : r.xForwardedFor = []
  · simp only [hx, ne_eq, not_true_eq_false, if_false, ite_not]
    by_cases hr : r.xRealIP = []
    · simp [hr, trimSpace, trimRightWhile, splitCh]
    · simp only [hr, if_neg hr]
      by_cases ht : trimSpace r.xRealIP = []
      · simp [ht, splitCh, trimSpace, trimRightWhile]
      · simp [ht, splitCh, trimSpace, trimRightWhile]
  · by_cases hf : trimSpace ((splitCh ',' r.xForwardedFor).headD []) = []
    · simp only [hx, hf]
      by_cases hr : r.xRealIP = []
      · simp [hr, hf, trimSpace, trimRightWhile]
      · by_cases ht : trimSpace r.xRealIP = []
        · simp [hr, hf, ht]
        · simp [hr, hf, ht]
    · have hf2 : ¬trimSpace ((splitCh ',' r.xForwardedFor).head?.getD []) = [] := by
        simpa using hf
      simp [hx, hf, hf2]

theorem splitCh_sep_prefix (sep : Char) (pre s : GoStr) (h : ∀ c ∈ pre, ¬c = sep) :
    splitCh sep (pre ++ sep :: s) = pre :: splitCh sep s := by
  induction pre with
  | nil => simp [splitCh]
  | cons a as ih =>
    have ha : ¬a = sep := h a (by simp)
    have h2 : ∀ c ∈ as, ¬c = sep := fun c hc => h c (by simp [hc])
    rw [List.cons_append]
    simp only [splitCh, if_neg ha, ih h2]

/-- C1: for every lookup request, the candidate IP string is selected in the
fixed priority order — a non-empty path segment after `/lookup/` is used
verbatim and headers and peer address are then ignored; otherwise the
whitespace-trimmed first comma-separated element of `X-Forwarded-For`, if
non-empty; otherwise the trimmed `X-Real-IP` header, if non-empty; otherwise
the host part of the transport peer address when it parses as host:port and
the raw peer address string when it does not.  Stated as the equality of the
handler's candidate selection with the spec-side resolution order, for every
path below `/lookup/` and all header/peer values. -/
theorem c1_resolution_order (rest xff xri peer method origin : GoStr) :
    resolveIPStr (reqFor method (gs "/lookup/" ++ rest) origin xff xri peer) =
      specResolutionOrder rest xff xri peer := by
  have htrim : trimCh '/' (gs "/lookup/" ++ rest) =
      if trimRightWhile (fun c => c = '/') rest = [] then gs "lookup"
      else gs "lookup" ++ '/' :: trimRightWhile (fun c => c = '/') rest := by
    unfold trimCh
    rw [show (gs "/lookup/" ++ rest).dropWhile (fun c => c = '/') = gs "lookup/" ++ rest from rfl]
    rw [trimRightWhile_append]
    by_cases hB : trimRightWhile (fun c => c = '/') rest = []
    · rw [if_pos hB, if_pos hB]
      rfl
    · rw [if_neg hB, if_neg hB]
      rfl
  by_cases hB : trimRightWhile (fun c => c = '/') rest = []
  · have hsp : splitCh '/' (trimCh '/' (gs "/lookup/" ++ rest)) = [gs "lookup"] := by
      rw [htrim, if_pos hB]
      rfl
    have hcode : resolveIPStr (reqFor method (gs "/lookup/" ++ rest) origin xff xri peer) =
        resolveFromHeaders (reqFor method (gs "/lookup/" ++ rest) origin xff xri peer) := by
      unfold resolveIPStr
      rw [show (reqFor method (gs "/lookup/" ++ rest) origin xff xri peer).path =
        gs "/lookup/" ++ rest from rfl, hsp]
    have hspec : specPathCandidate rest = [] := by
      unfold specPathCandidate
      rw [headD_splitCh]
      exact takeWhile_of_trimRight_nil '/' rest hB
    rw [hcode, resolveFromHeaders_eq]
    unfold specResolutionOrder
    rw [hspec]
    simp only [ne_eq, not_true_eq_false, if_false, ite_not]
    rfl
  · obtain ⟨g, rest2, hg⟩ :=
      List.exists_cons_of_ne_nil (splitCh_ne_nil '/' (trimRightWhile (fun c => c = '/') rest))
    have hsp : splitCh '/' (trimCh '/' (gs "/lookup/" ++ rest)) = gs "lookup" :: g :: rest2 := by
      rw [htrim, if_neg hB, splitCh_sep_prefix '/' (gs "lookup") _ (by decide), hg]
    have hgval : g = rest.takeWhile (fun c => ¬c = '/') := by
      have hh : g = (splitCh '/' (trimRightWhile (fun c => c = '/') rest)).headD [] := by
        rw [hg]
        rfl
      rw [hh, headD_splitCh, takeWhile_trimRight]
    have hspec : specPathCandidate rest = g := by
      unfold specPathCandidate
      rw [headD_splitCh, ← hgval]
    have hcode : resolveIPStr (reqFor method (gs "/lookup/" ++ rest) origin xff xri peer) =
        if g = [] then resolveFromHeaders (reqFor method (gs "/lookup/" ++ rest) origin xff xri peer)
        else g := by
      unfold resolveIPStr
      rw [show (reqFor method (gs "/lookup/" ++ rest) origin xff xri peer).path =
        gs "/lookup/" ++ rest from rfl, hsp]
    rw [hcode]
    unfold specResolutionOrder
    rw [hspec]
    by_cases hgnil : g = []
    · rw [if_pos hgnil, if_neg (by simp [hgnil]), resolveFromHeaders_eq]
      rfl
    · rw [if_neg hgnil, if_pos hgnil]

theorem lookupHandler_some (city : GeoProvider) (r : Request) :
    lookupHandler (some city) r =
      (if resolveIPStr r = [] then
        writeJSONError (gs "Could not determine IP address from request") 400
      else
        match goParseIP (resolveIPStr r) with
        | none => writeJSONError (gs "Invalid IP address format: " ++ resolveIPStr r) 400
        | some ip =>
          match city ip with
          | none => writeJSONError (gs "GeoIP data not found for IP: " ++ goIPString ip) 404
          | some record =>
            { status := 200, headers := [contentTypeJSON], body := Body.json (lookupFields ip record)
              }) := rfl

/-- C2: for every lookup request, an empty resolved candidate yields a 400
with message exactly "Could not determine IP address from request", and a
non-empty candidate that is not a syntactically valid IPv4/IPv6 address
yields a 400 with message exactly "Invalid IP address format: " followed by
the candidate (no later resolution source is consulted: the response is
determined by the single resolved candidate). -/
theorem c2_invalid_candidate (city : GeoProvider) (r : Request) :
    (resolveIPStr r = [] →
      lookupHandler (some city) r =
        writeJSONError (gs "Could not determine IP address from request") 400) ∧
    (resolveIPStr r ≠ [] → goParseIP (resolveIPStr r) = none →
      lookupHandler (some city) r =
        writeJSONError (gs "Invalid IP address format: " ++ resolveIPStr r) 400) := by
  constructor
  · intro h
    rw [lookupHandler_some, if_pos h]
  · intro h hp
    rw [lookupHandler_some, if_neg h, hp]

/-- C2 witness: the invalid path candidate `not-an-ip` gives the exact 400
message, and a request with no candidate at all (empty headers, peer
address `:80` whose host part is empty) gives the exact
"could not determine" 400. -/
theorem c2_invalid_candidate_witness :
    lookupHandler (some provHit) (mkReq (gs "/lookup/not-an-ip") [] [] [] (gs "10.0.0.9:1234")) =
      writeJSONError (gs "Invalid IP address format: not-an-ip") 400 ∧
    lookupHandler (some provHit) (mkReq (gs "/lookup/") [] [] [] (gs ":80")) =
      writeJSONError (gs "Could not determine IP address from request") 400 := by
  constructor
  · rw [(c2_invalid_candidate provHit
      (mkReq (gs "/lookup/not-an-ip") [] [] [] (gs "10.0.0.9:1234"))).2 (by decide) (by decide)]
    decide
  · exact (c2_invalid_candidate provHit (mkReq (gs "/lookup/") [] [] [] (gs ":80"))).1 (by decide)

/-- C3: every successful lookup response is a 200 whose JSON body has
exactly the keys ip, city, country_code, country_name, continent, latitude,
longitude, time_zone, postal_code (strings from the record, coordinates as
numbers, ip in canonical textual form), plus subdivision_name if and only
if the provider returned at least one subdivision entry, valued from the
first entry only and never emitted as an empty placeholder for zero
subdivisions. -/
theorem c3_success_shape (city : GeoProvider) (r : Request) (ip : List Nat) (record : GeoRecord)
    (h0 : resolveIPStr r ≠ []) (h1 : goParseIP (resolveIPStr r) = some ip)
    (h2 : city ip = some record) :
    lookupHandler (some city) r =
      { status := 200, headers := [contentTypeJSON], body := Body.json (lookupFields ip record) } ∧
    (lookupFields ip record).map Prod.fst =
      [gs "ip", gs "city", gs "country_code", gs "country_name", gs "continent",
       gs "latitude", gs "longitude", gs "time_zone", gs "postal_code"] ++
        (if record.subdivisionNamesEn = [] then [] else [gs "subdivision_name"]) ∧
    (lookupFields ip record).lookup (gs "ip") = some (JVal.str (goIPString ip)) ∧
    (lookupFields ip record).lookup (gs "city") = some (JVal.str record.cityNameEn) ∧
    (lookupFields ip record).lookup (gs "country_code") = some (JVal.str record.countryIso) ∧
    (lookupFields ip record).lookup (gs "country_name") = some (JVal.str record.countryNameEn) ∧
    (lookupFields ip record).lookup (gs "continent") = some (JVal.str record.continentNameEn) ∧
    (lookupFields ip record).lookup (gs "latitude") = some (JVal.num record.latitude) ∧
    (lookupFields ip record).lookup (gs "longitude") = some (JVal.num record.longitude) ∧
    (lookupFields ip record).lookup (gs "time_zone") = some (JVal.str record.timeZone) ∧
    (lookupFields ip record).lookup (gs "postal_code") = some (JVal.str record.postalCode) ∧
    (∀ s rest2, record.subdivisionNamesEn = s :: rest2 →
      (lookupFields ip record).lookup (gs "subdivision_name") = some (JVal.str s)) ∧
    (record.subdivisionNamesEn = [] →
      (lookupFields ip record).lookup (gs "subdivision_name") = none) := by
  refine ⟨?_, ?_, rfl, rfl, rfl, rfl, rfl, rfl, rfl, rfl, rfl, ?_, ?_⟩
  · have hstep : lookupHandler (some city) r =
        (match city ip with
         | none => writeJSONError (gs "GeoIP data not found for IP: " ++ goIPString ip) 404
         | some record =>
           { status := 200, headers := [contentTypeJSON], body := Body.json (lookupFields ip record)
             }) := by
      rw [lookupHandler_some, if_neg h0, h1]
    rw [hstep, h2]
  · cases hsub : record.subdivisionNamesEn with
    | nil =>
      unfold lookupFields
      rw [hsub]
      rfl
    | cons s rest2 =>
      unfold lookupFields
      rw [hsub]
      rfl
  · intro s rest2 hsub
    unfold lookupFields
    rw [hsub]
    rfl
  · intro hsub
    unfold lookupFields
    rw [hsub]
    rfl

/-- C3 witness: a concrete hit with one subdivision produces the shaped 200
response for `GET /lookup/8.8.8.8`. -/
theorem c3_success_shape_witness :
    lookupHandler (some provHit) (mkReq (gs "/lookup/8.8.8.8") [] [] [] (gs "10.0.0.9:1")) =
      { status := 200, headers := [contentTypeJSON],
        body := Body.json (lookupFields (v4mapped [8, 8, 8, 8]) record0) } ∧
    (lookupFields (v4mapped [8, 8, 8, 8]) record0).lookup (gs "subdivision_name") =
      some (JVal.str (gs "California")) := by
  have h := c3_success_shape provHit (mkReq (gs "/lookup/8.8.8.8") [] [] [] (gs "10.0.0.9:1"))
    (v4mapped [8, 8, 8, 8]) record0 (by decide) (by decide) rfl
  exact ⟨h.1, h.2.2.2.2.2.2.2.2.2.2.2.1 (gs "California") [] rfl⟩

/-- C4: for every validly resolved IP whose provider lookup fails, the
response is exactly the 404 error with message "GeoIP data not found for
IP: " followed by the canonical textual form of the resolved address, and
no success body is produced. -/
theorem c4_provider_miss (city : GeoProvider) (r : Request) (ip : List Nat)
    (h0 : resolveIPStr r ≠ []) (h1 : goParseIP (resolveIPStr r) = some ip)
    (h2 : city ip = none) :
    lookupHandler (some city) r =
      writeJSONError (gs "GeoIP data not found for IP: " ++ goIPString ip) 404 := by
  have hstep : lookupHandler (some city) r =
      (match city ip with
       | none => writeJSONError (gs "GeoIP data not found for IP: " ++ goIPString ip) 404
       | some record =>
         { status := 200, headers := [contentTypeJSON], body := Body.json (lookupFields ip record)
           }) := by
    rw [lookupHandler_some, if_neg h0, h1]
  rw [hstep, h2]

/-- C4 witness: a provider miss for 8.8.8.8 produces the exact 404 message
with the canonical address text. -/
theorem c4_provider_miss_witness :
    lookupHandler (some provMiss) (mkReq (gs "/lookup/8.8.8.8") [] [] [] (gs "10.0.0.9:1")) =
      writeJSONError (gs "GeoIP data not found for IP: 8.8.8.8") 404 := by
  rw [c4_provider_miss provMiss (mkReq (gs "/lookup/8.8.8.8") [] [] [] (gs "10.0.0.9:1"))
    (v4mapped [8, 8, 8, 8]) (by decide) (by decide) rfl]
  decide

/-- C10: every lookup request arriving while the database handle is not
loaded is answered 500 with message "GeoIP service not available",
independently of the request (so before any client-IP resolution or
validation takes place). -/
theorem c10_db_not_loaded (r : Request) :
    lookupHandler none r = writeJSONError (gs "GeoIP service not available") 500 := rfl

theorem corsHeaders_wildcard (allowed : List GoStr) (origin method : GoStr)
    (hw : allowed.contains (gs "*") = true) :
    corsHeaders allowed origin method =
      [(gs "Access-Control-Allow-Origin", gs "*"),
       (gs "Access-Control-Allow-Methods", gs "GET, POST, OPTIONS, PUT, DELETE"),
       (gs "Access-Control-Allow-Headers", gs "Content-Type, Authorization, X-Requested-With")] ++
        (if method = gs "OPTIONS" then [(gs "Access-Control-Max-Age", gs "86400")] else []) := by
  unfold corsHeaders
  rw [hw]
  rfl

theorem corsHeaders_exact (allowed : List GoStr) (origin method : GoStr)
    (hw : allowed.contains (gs "*") = false) (hc : allowed.contains origin = true)
    (hO : origin ≠ []) :
    corsHeaders allowed origin method =
      [(gs "Access-Control-Allow-Origin", origin), (gs "Vary", gs "Origin"),
       (gs "Access-Control-Allow-Methods", gs "GET, POST, OPTIONS, PUT, DELETE"),
       (gs "Access-Control-Allow-Headers", gs "Content-Type, Authorization, X-Requested-With"),
       (gs "Access-Control-Allow-Credentials", gs "true")] ++
        (if method = gs "OPTIONS" then [(gs "Access-Control-Max-Age", gs "86400")] else []) := by
  unfold corsHeaders
  rw [hw, hc, if_pos (And.intro (by simp) hO)]
  rfl

/-- C5: for a request with non-empty Origin and non-empty configured
allow-list, a configured literal `*` makes the middleware emit
`Access-Control-Allow-Origin: *` and never a credentials header; otherwise
an exact case-sensitive match emits `Access-Control-Allow-Origin` echoing
the Origin, `Vary: Origin`, and `Access-Control-Allow-Credentials: true`;
in both allowed cases it also emits the fixed allow-methods and
allow-headers lists. -/
theorem c5_cors_allowed_headers (allowed : List GoStr) (origin method : GoStr)
    (_hA : allowed ≠ []) (hO : origin ≠ []) :
    (allowed.contains (gs "*") = true →
      (gs "Access-Control-Allow-Origin", gs "*") ∈ corsHeaders allowed origin method ∧
      ∀ v, (gs "Access-Control-Allow-Credentials", v) ∉ corsHeaders allowed origin method) ∧
    (allowed.contains (gs "*") = false → allowed.contains origin = true →
      (gs "Access-Control-Allow-Origin", origin) ∈ corsHeaders allowed origin method ∧
      (gs "Vary", gs "Origin") ∈ corsHeaders allowed origin method ∧
      (gs "Access-Control-Allow-Credentials", gs "true") ∈ corsHeaders allowed origin method) ∧
    ((allowed.contains (gs "*") = true ∨ allowed.contains origin = true) →
      (gs "Access-Control-Allow-Methods", gs "GET, POST, OPTIONS, PUT, DELETE")
          ∈ corsHeaders allowed origin method ∧
      (gs "Access-Control-Allow-Headers", gs "Content-Type, Authorization, X-Requested-With")
          ∈ corsHeaders allowed origin method) := by
  refine ⟨fun hw => ⟨?_, ?_⟩, fun hw hc => ?_, fun hAllow => ?_⟩
  · rw [corsHeaders_wildcard allowed origin method hw]
    simp
  · intro v hv
    have hk : gs "Access-Control-Allow-Credentials" ∈
        (corsHeaders allowed origin method).map Prod.fst :=
      List.mem_map_of_mem Prod.fst hv
    rw [corsHeaders_wildcard allowed origin method hw] at hk
    by_cases hm : method = gs "OPTIONS"
    · rw [if_pos hm] at hk
      exact absurd hk (by decide)
    · rw [if_neg hm] at hk
      exact absurd hk (by decide)
  · rw [corsHeaders_exact allowed origin method hw hc hO]
    refine ⟨by simp, by simp, by simp⟩
  · by_cases hw : allowed.contains (gs "*") = true
    · rw [corsHeaders_wildcard allowed origin method hw]
      exact ⟨by simp, by simp⟩
    · have hc : allowed.contains origin = true := by
        rcases hAllow with h | h
        · exact absurd h hw
        · exact h
      rw [corsHeaders_exact allowed origin method (by simpa using hw) hc hO]
      exact ⟨by simp, by simp⟩

/-- C5 witness: with configured origins `["*"]` and Origin `http://x.com`
the wildcard header is emitted and no credentials header is; with
configured origins `["http://a.com"]` and Origin `http://a.com` the origin
is echoed with `Vary: Origin` and credentials, and both allowed cases carry
the fixed methods and headers lists. -/
theorem c5_cors_allowed_headers_witness :
    ((gs "Access-Control-Allow-Origin", gs "*")
        ∈ corsHeaders [gs "*"] (gs "http://x.com") (gs "GET") ∧
      ∀ v, (gs "Access-Control-Allow-Credentials", v)
        ∉ corsHeaders [gs "*"] (gs "http://x.com") (gs "GET")) ∧
    ((gs "Access-Control-Allow-Origin", gs "http://a.com")
        ∈ corsHeaders [gs "http://a.com"] (gs "http://a.com") (gs "GET") ∧
      (gs "Vary", gs "Origin")
        ∈ corsHeaders [gs "http://a.com"] (gs "http://a.com") (gs "GET") ∧
      (gs "Access-Control-Allow-Credentials", gs "true")
        ∈ corsHeaders [gs "http://a.com"] (gs "http://a.com") (gs "GET")) ∧
    (gs "Access-Control-Allow-Methods", gs "GET, POST, OPTIONS, PUT, DELETE")
        ∈ corsHeaders [gs "*"] (gs "http://x.com") (gs "GET") := by
  refine ⟨?_, ?_, ?_⟩
  · exact (c5_cors_allowed_headers [gs "*"] (gs "http://x.com") (gs "GET")
      (by decide) (by decide)).1 (by decide)
  · exact (c5_cors_allowed_headers [gs "http://a.com"] (gs "http://a.com") (gs "GET")
      (by decide) (by decide)).2.1 (by decide) (by decide)
  · exact ((c5_cors_allowed_headers [gs "*"] (gs "http://x.com") (gs "GET")
      (by decide) (by decide)).2.2 (Or.inl (by decide))).1

/-- C6: every OPTIONS request whose origin is allowed (wildcard or exact
match, with non-empty allow-list and Origin) is answered by the middleware
itself with 204, no body, the CORS headers including
`Access-Control-Max-Age: 86400`, and the downstream handler is never
invoked (the result does not depend on `next` and the invocation flag is
false). -/
theorem c6_preflight (allowed : List GoStr) (next : Request → Response) (r : Request)
    (hA : allowed ≠ []) (hO : r.origin ≠ [])
    (hAllow : (allowed.contains (gs "*") || allowed.contains r.origin) = true)
    (hm : r.method = gs "OPTIONS") :
    corsMiddleware allowed next r =
      ({ status := 204, headers := corsHeaders allowed r.origin r.method, body := Body.empty },
        false) ∧
    (gs "Access-Control-Max-Age", gs "86400") ∈ corsHeaders allowed r.origin r.method := by
  constructor
  · unfold corsMiddleware
    rw [if_neg (by push_neg; exact ⟨hA, hO⟩), hAllow, if_pos rfl, if_pos hm]
  · by_cases hw : allowed.contains (gs "*") = true
    · rw [corsHeaders_wildcard allowed r.origin r.method hw, if_pos hm]
      simp
    · have hc : allowed.contains r.origin = true := by
        rcases Bool.or_eq_true_iff.mp hAllow with h | h
        · exact absurd h hw
        · exact h
      rw [corsHeaders_exact allowed r.origin r.method (by simpa using hw) hc hO, if_pos hm]
      simp

/-- C6 witness: configured origins `["http://a.com"]`, Origin
`http://a.com`, method OPTIONS — the middleware answers 204 with empty body
and max-age header without invoking the downstream mux. -/
theorem c6_preflight_witness :
    corsMiddleware [gs "http://a.com"] (muxHandler (some provHit))
        (reqFor (gs "OPTIONS") (gs "/lookup/8.8.8.8") (gs "http://a.com") [] [] (gs "10.0.0.9:1")) =
      ({ status := 204,
         headers := corsHeaders [gs "http://a.com"] (gs "http://a.com") (gs "OPTIONS"),
         body := Body.empty }, false) ∧
    (gs "Access-Control-Max-Age", gs "86400")
      ∈ corsHeaders [gs "http://a.com"] (gs "http://a.com") (gs "OPTIONS") := by
  exact c6_preflight [gs "http://a.com"] (muxHandler (some provHit))
    (reqFor (gs "OPTIONS") (gs "/lookup/8.8.8.8") (gs "http://a.com") [] [] (gs "10.0.0.9:1"))
    (by decide) (by decide) (by decide) (by decide)

/-- C7: every request that is not CORS-allowed — empty configured
allow-list, or empty Origin header, or an Origin matching no configured
entry with no wildcard configured — passes through the middleware
completely untouched (no CORS headers, downstream always invoked, OPTIONS
included). -/
theorem c7_not_allowed_passthrough (allowed : List GoStr) (next : Request → Response)
    (r : Request)
    (h : allowed = [] ∨ r.origin = [] ∨
      (allowed.contains (gs "*") = false ∧ allowed.contains r.origin = false)) :
    corsMiddleware allowed next r = (next r, true) := by
  unfold corsMiddleware
  rcases h with h | h | ⟨h1, h2⟩
  · rw [if_pos (Or.inl h)]
  · rw [if_pos (Or.inr h)]
  · by_cases he : allowed = [] ∨ r.origin = []
    · rw [if_pos he]
    · rw [if_neg he, h1, h2]
      rfl

/-- C7 witness: configured origins `["http://a.com"]` with Origin
`http://b.com` pass through unchanged, both for OPTIONS and for GET. -/
theorem c7_not_allowed_passthrough_witness :
    corsMiddleware [gs "http://a.com"] (muxHandler (some provHit))
        (reqFor (gs "OPTIONS") (gs "/lookup/8.8.8.8") (gs "http://b.com") [] [] (gs "10.0.0.9:1")) =
      (muxHandler (some provHit)
        (reqFor (gs "OPTIONS") (gs "/lookup/8.8.8.8") (gs "http://b.com") [] [] (gs "10.0.0.9:1")),
        true) ∧
    corsMiddleware [gs "http://a.com"] (muxHandler (some provHit))
        (reqFor (gs "GET") (gs "/lookup/8.8.8.8") (gs "http://b.com") [] [] (gs "10.0.0.9:1")) =
      (muxHandler (some provHit)
        (reqFor (gs "GET") (gs "/lookup/8.8.8.8") (gs "http://b.com") [] [] (gs "10.0.0.9:1")),
        true) := by
  constructor
  · exact c7_not_allowed_passthrough [gs "http://a.com"] (muxHandler (some provHit))
      (reqFor (gs "OPTIONS") (gs "/lookup/8.8.8.8") (gs "http://b.com") [] [] (gs "10.0.0.9:1"))
      (Or.inr (Or.inr (by decide)))
  · exact c7_not_allowed_passthrough [gs "http://a.com"] (muxHandler (some provHit))
      (reqFor (gs "GET") (gs "/lookup/8.8.8.8") (gs "http://b.com") [] [] (gs "10.0.0.9:1"))
      (Or.inr (Or.inr (by decide)))

/-- C8: every request routed to `/healthz` is answered 200 with body
`{"status":"ok"}` when the provider handle is loaded, and 500 with body
exactly `{"message":"GeoIP database not loaded","code":500}` when it is
not. -/
theorem c8_healthz (r : Request) (hp : r.path = gs "/healthz") :
    muxHandler none r =
      { status := 500, headers := [contentTypeJSON],
        body := Body.json [(gs "message", JVal.str (gs "GeoIP database not loaded")),
                           (gs "code", JVal.num 500)] } ∧
    ∀ city : GeoProvider, muxHandler (some city) r =
      { status := 200, headers := [contentTypeJSON],
        body := Body.json [(gs "status", JVal.str (gs "ok"))] } := by
  have hm : ∀ db, muxHandler db r = healthzHandler db r := by
    intro db
    unfold muxHandler
    rw [hp, if_pos rfl]
  constructor
  · rw [hm none,
      show healthzHandler none r = writeJSONError (gs "GeoIP database not loaded") 500 from rfl]
    decide
  · intro city
    rw [hm (some city)]
    rfl

/-- C8 witness: the two healthz responses at the concrete path. -/
theorem c8_healthz_witness :
    muxHandler none (mkReq (gs "/healthz") [] [] [] (gs "10.0.0.9:1")) =
      { status := 500, headers := [contentTypeJSON],
        body := Body.json [(gs "message", JVal.str (gs "GeoIP database not loaded")),
                           (gs "code", JVal.num 500)] } ∧
    muxHandler (some provHit) (mkReq (gs "/healthz") [] [] [] (gs "10.0.0.9:1")) =
      { status := 200, headers := [contentTypeJSON],
        body := Body.json [(gs "status", JVal.str (gs "ok"))] } := by
  have h := c8_healthz (mkReq (gs "/healthz") [] [] [] (gs "10.0.0.9:1")) rfl
  exact ⟨h.1, h.2 provHit⟩

/-- C9 counterexample: the claim says every error response produced by the
service has a JSON `{message, code}` body with Content-Type
application/json, but the service's 404 for a path outside the registered
routes (the root handler's `http.NotFound` fallback, e.g.
`GET /favicon.ico`) is an error response (status ≥ 400) with Content-Type
`text/plain; charset=utf-8` whose body is not a JSON object at all. -/
theorem c9_counterexample :
    400 ≤ (service (some provHit) [] (mkReq (gs "/favicon.ico") [] [] [] (gs "10.0.0.9:1"))).1.status ∧
    (service (some provHit) [] (mkReq (gs "/favicon.ico") [] [] [] (gs "10.0.0.9:1"))).1.headers =
      [(gs "Content-Type", gs "text/plain; charset=utf-8"),
       (gs "X-Content-Type-Options", gs "nosniff")] ∧
    ∀ fields,
      (service (some provHit) [] (mkReq (gs "/favicon.ico") [] [] [] (gs "10.0.0.9:1"))).1.body ≠
        Body.json fields := by
  refine ⟨by decide, by decide, ?_⟩
  intro fields h
  exact Body.noConfusion
    (show Body.text (gs "404 page not found\n") = Body.json fields from h)

/-- C9 (amended): every error response written via `writeJSONError` — which
covers every non-200 response of the lookup and healthz handlers — has body
exactly the JSON object with fields `message` (string) and `code` (number),
the `code` field equal to the HTTP status, and Content-Type
application/json; the root handler's plain-text 404 fallback for unknown
paths is the only error response outside this shape. -/
theorem c9_error_body (db : Option GeoProvider) (r : Request) (m : GoStr) (c : Nat) :
    writeJSONError m c =
      { status := c, headers := [contentTypeJSON],
        body := Body.json [(gs "message", JVal.str m), (gs "code", JVal.num (c : Rat))] } ∧
    ((lookupHandler db r).status ≠ 200 →
      ∃ msg, lookupHandler db r = writeJSONError msg (lookupHandler db r).status) ∧
    ((healthzHandler db r).status ≠ 200 →
      ∃ msg, healthzHandler db r = writeJSONError msg (healthzHandler db r).status) := by
  refine ⟨rfl, ?_, ?_⟩
  · intro h
    cases db with
    | none => exact ⟨gs "GeoIP service not available", rfl⟩
    | some city =>
      by_cases h0 : resolveIPStr r = []
      · refine ⟨gs "Could not determine IP address from request", ?_⟩
        rw [lookupHandler_some, if_pos h0]
        rfl
      · cases hp : goParseIP (resolveIPStr r) with
        | none =>
          refine ⟨gs "Invalid IP address format: " ++ resolveIPStr r, ?_⟩
          rw [lookupHandler_some, if_neg h0, hp]
          rfl
        | some ip =>
          have hstep : lookupHandler (some city) r =
              (match city ip with
               | none => writeJSONError (gs "GeoIP data not found for IP: " ++ goIPString ip) 404
               | some record =>
                 { status := 200, headers := [contentTypeJSON],
                   body := Body.json (lookupFields ip record) }) := by
            rw [lookupHandler_some, if_neg h0, hp]
          cases hc : city ip with
          | none =>
            refine ⟨gs "GeoIP data not found for IP: " ++ goIPString ip, ?_⟩
            rw [hstep, hc]
            rfl
          | some record =>
            exfalso
            apply h
            rw [hstep, hc]
  · intro h
    cases db with
    | none => exact ⟨gs "GeoIP database not loaded", rfl⟩
    | some city => exact absurd rfl h

/-- C9 witness: with the database unloaded, both handlers produce non-200
responses that are exactly `writeJSONError` bodies at their own status. -/
theorem c9_error_body_witness :
    (∃ msg, lookupHandler none (mkReq (gs "/lookup/8.8.8.8") [] [] [] (gs "10.0.0.9:1")) =
      writeJSONError msg
        (lookupHandler none (mkReq (gs "/lookup/8.8.8.8") [] [] [] (gs "10.0.0.9:1"))).status) ∧
    (∃ msg, healthzHandler none (mkReq (gs "/lookup/8.8.8.8") [] [] [] (gs "10.0.0.9:1")) =
      writeJSONError msg
        (healthzHandler none (mkReq (gs "/lookup/8.8.8.8") [] [] [] (gs "10.0.0.9:1"))).status) := by
  have h := c9_error_body none (mkReq (gs "/lookup/8.8.8.8") [] [] [] (gs "10.0.0.9:1")) [] 0
  exact ⟨h.2.1 (by decide), h.2.2 (by decide)⟩

theorem resolve_example_xff :
    resolveIPStr (mkReq (gs "/lookup/") (gs "1.2.3.4, 5.6.7.8") [] [] (gs "10.0.0.9:1")) =
      gs "1.2.3.4" := by decide

theorem resolve_example_xri :
    resolveIPStr (mkReq (gs "/lookup/") [] (gs "9.9.9.9") [] (gs "10.0.0.9:1")) =
      gs "9.9.9.9" := by decide

theorem resolve_example_peer :
    resolveIPStr (mkReq (gs "/lookup/") [] [] [] (gs "203.0.113.5:54321")) =
      gs "203.0.113.5" := by decide
